import Mathlib

/-!
Verification of the vex-lang-types type bridge.

The TypeScript sources are shallowly embedded:
* `src/Types.ts`      → namespace `Vex`    (branded-type constructors,
  metadata table, classification predicates, `VexFunction`);
* `src/unnamed/part_000` (the unnamed duplicate module, "Liquid Script
  Type System") → namespace `Liquid`;
* `src/TypeMapper.ts` → namespace `TypeMapper` (annotation mapping and
  literal-shape inference).

Modelling conventions:
* A JavaScript `number` is modelled as a rational `ℚ`; `Number.isInteger`
  is `Rat.isInt`, `Math.abs` is `|·|`.  Every numeric constant compared
  against in the sources (−32768, 2147483647, 3.4028235e38, …) is exactly
  representable, and no claim exercises a value within one double ulp of a
  bound, so rational arithmetic agrees with IEEE double arithmetic on every
  comparison performed here.
* A thrown `TypeError` is modelled as `VexError.invalidFormat` and a thrown
  `RangeError` as `VexError.outOfRange tag`, where `tag` is the
  distinguishing keyword of the error message ("overflow"/"underflow"),
  and a throwing function returns `Except VexError α`.
* A bare object literal inherits the properties of `Object.prototype`, so
  a property read `obj[key]` and the `in` operator also find inherited
  keys such as `toString`.  `jsRecordGet` models the read (own string
  entry, else inherited `Object.prototype` member when `key` is one of
  `objectProtoKeys`, else `undefined`); every inherited member is truthy.
  A function the TypeScript source types as `string` can therefore return
  an inherited prototype member instead of a string at runtime; its
  result is modelled by `JsRet` (`str` or `protoMember`), and the string
  coercion applied by template literals and `Array.join` by `jsCoerce`.
* JavaScript truthiness of a possibly-absent string (`m?.x || 'auto'`,
  `if (table[k]) …`) is modelled by `jsStringOr` (for `getCppType`, where
  the inherited member's `.cppType` read yields `undefined` and thus the
  default, so the own-key model coincides with the source) and by
  `jsGetOr` (for the mapper's bare lookups, where the inherited member
  itself is returned).
* JavaScript `Array.prototype.join(sep)` is modelled by `jsJoin`.
-/

/-- The property names of `Object.prototype` (ECMAScript, Annex B
accessors included, as implemented by V8/Deno): a bare object literal
inherits exactly these string keys. -/
def objectProtoKeys : List String :=
  ["constructor", "hasOwnProperty", "isPrototypeOf", "propertyIsEnumerable",
   "toLocaleString", "toString", "valueOf", "__defineGetter__", "__defineSetter__",
   "__lookupGetter__", "__lookupSetter__", "__proto__"]

/-- The runtime value actually produced by the mapper's string-typed
functions: either a genuine string, or — when a bare-object lookup hits
an inherited key — the inherited member of `Object.prototype` itself
(`protoMember nm` denotes `Object.prototype[nm]`, a function object, or
the prototype object itself for the `__proto__` accessor). -/
inductive JsRet where
  | str : String → JsRet
  | protoMember : String → JsRet
deriving DecidableEq, Repr

/-- Result of a bare-object property read `obj[key]` on a literal whose
own entries are strings. -/
inductive JsLookup where
  | ownStr : String → JsLookup
  | inherited : String → JsLookup
  | absent : JsLookup
deriving DecidableEq, Repr

/-- Bare-object property read `obj[key]`: an own key yields its string
value; a missing own key falls back to the prototype chain, yielding the
inherited `Object.prototype` member when `key` names one, else
`undefined`. -/
def jsRecordGet (f : String → Option String) (key : String) : JsLookup :=
  match f key with
  | some s => .ownStr s
  | none => if objectProtoKeys.contains key then .inherited key else .absent

/-- Truthiness-guarded bare-object read with default, as in
`table[key] || dflt` and `if (table[key]) return table[key]; … return
dflt`: an own string entry is returned unless empty (the only falsy
string), every inherited `Object.prototype` member is truthy and is
returned as is, and `undefined` falls through to the default. -/
def jsGetOr (f : String → Option String) (key dflt : String) : JsRet :=
  match jsRecordGet f key with
  | .ownStr s => if s = "" then .str dflt else .str s
  | .inherited nm => .protoMember nm
  | .absent => .str dflt

/-- JavaScript string coercion as applied by template literals and
`Array.join`: a string is itself; an inherited prototype member coerces
to its V8/Deno rendering (`Function.prototype.toString` output for the
function-valued members, `[object Object]` for the object the
`__proto__` accessor returns, the `Object` constructor for
`constructor`).  No claim depends on the exact rendering, only on
`jsCoerce (.str s) = s`. -/
def jsCoerce : JsRet → String
  | .str s => s
  | .protoMember nm =>
    if nm = "__proto__" then "[object Object]"
    else if nm = "constructor" then "function Object() \x7b [native code] \x7d"
    else "function " ++ nm ++ "() \x7b [native code] \x7d"

/-- A mapper result is accounted for when it is a nonempty string or an
inherited `Object.prototype` member. -/
def okRet : JsRet → Bool
  | .str s => decide (s ≠ "")
  | .protoMember nm => objectProtoKeys.contains nm

/-- Discriminator: is the runtime value an actual string? -/
def JsRet.isStr : JsRet → Bool
  | .str _ => true
  | .protoMember _ => false

/-- Model of JavaScript `o?.f || dflt` on strings: `none` and the empty
string (the two falsy cases that can arise) select the default. -/
def jsStringOr (o : Option String) (dflt : String) : String :=
  match o with
  | some s => if s = "" then dflt else s
  | none => dflt

/-- Model of JavaScript `text.includes(c)` for a single-character
needle: containment among the string's characters. -/
def jsIncludes (text : String) (c : Char) : Bool := text.data.contains c

/-- Model of JavaScript `Array.prototype.join sep`. -/
def jsJoin (sep : String) : List String → String
  | [] => ""
  | [a] => a
  | a :: b :: rest => a ++ sep ++ jsJoin sep (b :: rest)

instance {ε α : Type} [DecidableEq ε] [DecidableEq α] : DecidableEq (Except ε α) :=
  fun x y =>
    match x, y with
    | .error e, .error f =>
      if h : e = f then .isTrue (h ▸ rfl) else .isFalse (fun hc => h (Except.error.inj hc))
    | .ok a, .ok b =>
      if h : a = b then .isTrue (h ▸ rfl) else .isFalse (fun hc => h (Except.ok.inj hc))
    | .error _, .ok _ => .isFalse (fun hc => Except.noConfusion hc)
    | .ok _, .error _ => .isFalse (fun hc => Except.noConfusion hc)

/-- Model of JavaScript `Math.abs` on the rationals. -/
def mathAbs (v : ℚ) : ℚ := if v < 0 then -v else v

/-- `mathAbs` agrees with the mathematical absolute value. -/
theorem mathAbs_eq_abs (v : ℚ) : mathAbs v = |v| := by
  simp only [mathAbs]
  split
  · rw [abs_of_neg]
    linarith
  · rw [abs_of_nonneg]
    linarith

/-- Errors thrown by the constructors of `src/Types.ts`: `invalidFormat`
models a thrown `TypeError`, `outOfRange tag` a thrown `RangeError` whose
message contains the keyword `tag` ("overflow" or "underflow"). -/
inductive VexError where
  | invalidFormat : VexError
  | outOfRange : String → VexError
deriving DecidableEq, Repr

/-- Metadata record (`interface TypeMetadata`, `src/Types.ts` lines
148-165 and the identical interface of the unnamed module). -/
structure TypeMetadata where
  name : String
  cppType : String
  size : Int
  min : Option ℚ
  max : Option ℚ
deriving DecidableEq, Repr

namespace Vex

/-- `int` constructor, `src/Types.ts` lines 54-62. -/
def int (value : ℚ) : Except VexError ℚ :=
  if !value.isInt then .error .invalidFormat
  else if value < -2147483648 ∨ value > 2147483647 then .error (.outOfRange "overflow")
  else .ok value

/-- `short` constructor, `src/Types.ts` lines 69-77. -/
def short (value : ℚ) : Except VexError ℚ :=
  if !value.isInt then .error .invalidFormat
  else if value < -32768 ∨ value > 32767 then .error (.outOfRange "overflow")
  else .ok value

/-- `long` constructor, `src/Types.ts` lines 84-93; the bounds are
`Number.MIN_SAFE_INTEGER`/`Number.MAX_SAFE_INTEGER` = ∓(2^53 − 1). -/
def long (value : ℚ) : Except VexError ℚ :=
  if !value.isInt then .error .invalidFormat
  else if value < -9007199254740991 ∨ value > 9007199254740991 then
    .error (.outOfRange "overflow")
  else .ok value

/-- The exact rational value of the source literal `3.4028235e38`
(`src/Types.ts` line 103). -/
def floatMax : ℚ := mkRat (34028235 * 10 ^ 31) 1

/-- The exact rational value of the source literal `1.175494e-38`
(`src/Types.ts` line 106). -/
def floatMinPos : ℚ := mkRat 1175494 (10 ^ 44)

/-- Sanity: `floatMax` and `floatMinPos` are the source's decimal literals. -/
theorem floatMax_floatMinPos_eq : floatMax = 3.4028235e38 ∧ floatMinPos = 1.175494e-38 := by
  constructor <;> norm_num [floatMax, floatMinPos, mkRat, Rat.normalize]

/-- `float` constructor, `src/Types.ts` lines 100-110
(`const absValue = Math.abs(value)`; overflow check, then underflow
check with zero exempt). -/
def float (value : ℚ) : Except VexError ℚ :=
  if mathAbs value > floatMax then .error (.outOfRange "overflow")
  else if mathAbs value > 0 ∧ mathAbs value < floatMinPos then .error (.outOfRange "underflow")
  else .ok value

/-- `double` constructor, `src/Types.ts` lines 119-121: pure brand, never
throws. -/
def double (value : ℚ) : ℚ := value

/-- `bool` constructor, `src/Types.ts` lines 129-131: pure brand. -/
def bool (value : Bool) : Bool := value

/-- `char` constructor, `src/Types.ts` lines 138-143: a JS string's
`.length` counts UTF-16 code units; modelled as `String.length`. -/
def char (value : String) : Except VexError String :=
  if value.length ≠ 1 then .error .invalidFormat
  else .ok value

/-- `TYPE_METADATA`, `src/Types.ts` lines 167-177, as a lookup function on
the record's keys. -/
def TYPE_METADATA (n : String) : Option TypeMetadata :=
  if n = "int" then some ⟨"int", "int32_t", 4, some (-2147483648), some 2147483647⟩
  else if n = "short" then some ⟨"short", "int16_t", 2, some (-32768), some 32767⟩
  else if n = "long" then
    some ⟨"long", "int64_t", 8, some (-9007199254740991), some 9007199254740991⟩
  else if n = "float" then some ⟨"float", "float", 4, none, none⟩
  else if n = "double" then some ⟨"double", "double", 8, none, none⟩
  else if n = "bool" then some ⟨"bool", "bool", 1, none, none⟩
  else if n = "char" then some ⟨"char", "char", 1, none, none⟩
  else if n = "string" then some ⟨"string", "std::string", -1, none, none⟩
  else if n = "void" then some ⟨"void", "void", 0, none, none⟩
  else none

/-- `getCppType`, `src/Types.ts` lines 185-187
(`TYPE_METADATA[typeName]?.cppType || 'auto'`). -/
def getCppType (typeName : String) : String :=
  jsStringOr ((TYPE_METADATA typeName).map TypeMetadata.cppType) "auto"

/-- `isWithinBounds`, `src/Types.ts` lines 196-202. -/
def isWithinBounds (value : ℚ) (typeName : String) : Bool :=
  match TYPE_METADATA typeName with
  | none => true
  | some metadata =>
    match metadata.min, metadata.max with
    | some lo, some hi => decide (lo ≤ value) && decide (value ≤ hi)
    | _, _ => true

/-- The data of a `VexFunction` (`src/Types.ts` lines 207-214): name,
declared return-type name, ordered (parameter name, parameter type) pairs.
The wrapped callable `func` is not read by any method modelled here and is
omitted. -/
structure VexFunction where
  name : String
  returnType : String
  parameters : List (String × String)

/-- `VexFunction.getCppSignature`, `src/Types.ts` lines 220-225. -/
def VexFunction.getCppSignature (f : VexFunction) : String :=
  let params := jsJoin ", " (f.parameters.map (fun p => getCppType p.2 ++ " " ++ p.1))
  getCppType f.returnType ++ " " ++ f.name ++ "(" ++ params ++ ")"

/-- `isIntegerType`, `src/Types.ts` lines 237-239. -/
def isIntegerType (typeName : String) : Bool :=
  ["int", "short", "long"].contains typeName

/-- `isFloatingType`, `src/Types.ts` lines 246-248. -/
def isFloatingType (typeName : String) : Bool :=
  ["float", "double"].contains typeName

/-- `isNumericType`, `src/Types.ts` lines 255-257. -/
def isNumericType (typeName : String) : Bool :=
  isIntegerType typeName || isFloatingType typeName

/-- `isPrimitiveType`, `src/Types.ts` lines 264-266
(`typeName in TYPE_METADATA`): the JS `in` operator consults the
prototype chain, so inherited `Object.prototype` keys also test true. -/
def isPrimitiveType (typeName : String) : Bool :=
  (TYPE_METADATA typeName).isSome || objectProtoKeys.contains typeName

end Vex

namespace Liquid

/-!
Embedding of the unnamed duplicate module `src/unnamed/part_000`
("Liquid Script Type System").  Its declarations are textually identical
to those of `src/Types.ts` (same constructor bodies, same metadata table,
same `VexFunction` class); the `TypeMetadata` interface is shared with the
`Vex` embedding since both files declare the identical record shape.
-/

/-- `int` constructor, `src/unnamed/part_000` lines 35-43. -/
def int (value : ℚ) : Except VexError ℚ :=
  if !value.isInt then .error .invalidFormat
  else if value < -2147483648 ∨ value > 2147483647 then .error (.outOfRange "overflow")
  else .ok value

/-- `short` constructor, `src/unnamed/part_000` lines 45-53. -/
def short (value : ℚ) : Except VexError ℚ :=
  if !value.isInt then .error .invalidFormat
  else if value < -32768 ∨ value > 32767 then .error (.outOfRange "overflow")
  else .ok value

/-- `long` constructor, `src/unnamed/part_000` lines 55-64. -/
def long (value : ℚ) : Except VexError ℚ :=
  if !value.isInt then .error .invalidFormat
  else if value < -9007199254740991 ∨ value > 9007199254740991 then
    .error (.outOfRange "overflow")
  else .ok value

/-- `float` constructor, `src/unnamed/part_000` lines 66-76; same bounds
literals as `src/Types.ts`. -/
def float (value : ℚ) : Except VexError ℚ :=
  if mathAbs value > Vex.floatMax then .error (.outOfRange "overflow")
  else if mathAbs value > 0 ∧ mathAbs value < Vex.floatMinPos then
    .error (.outOfRange "underflow")
  else .ok value

/-- `double` constructor, `src/unnamed/part_000` lines 78-80. -/
def double (value : ℚ) : ℚ := value

/-- `bool` constructor, `src/unnamed/part_000` lines 82-84. -/
def bool (value : Bool) : Bool := value

/-- `char` constructor, `src/unnamed/part_000` lines 86-91. -/
def char (value : String) : Except VexError String :=
  if value.length ≠ 1 then .error .invalidFormat
  else .ok value

/-- `TYPE_METADATA`, `src/unnamed/part_000` lines 104-114. -/
def TYPE_METADATA (n : String) : Option TypeMetadata :=
  if n = "int" then some ⟨"int", "int32_t", 4, some (-2147483648), some 2147483647⟩
  else if n = "short" then some ⟨"short", "int16_t", 2, some (-32768), some 32767⟩
  else if n = "long" then
    some ⟨"long", "int64_t", 8, some (-9007199254740991), some 9007199254740991⟩
  else if n = "float" then some ⟨"float", "float", 4, none, none⟩
  else if n = "double" then some ⟨"double", "double", 8, none, none⟩
  else if n = "bool" then some ⟨"bool", "bool", 1, none, none⟩
  else if n = "char" then some ⟨"char", "char", 1, none, none⟩
  else if n = "string" then some ⟨"string", "std::string", -1, none, none⟩
  else if n = "void" then some ⟨"void", "void", 0, none, none⟩
  else none

/-- `getCppType`, `src/unnamed/part_000` lines 119-121. -/
def getCppType (typeName : String) : String :=
  jsStringOr ((TYPE_METADATA typeName).map TypeMetadata.cppType) "auto"

/-- `isWithinBounds`, `src/unnamed/part_000` lines 126-132. -/
def isWithinBounds (value : ℚ) (typeName : String) : Bool :=
  match TYPE_METADATA typeName with
  | none => true
  | some metadata =>
    match metadata.min, metadata.max with
    | some lo, some hi => decide (lo ≤ value) && decide (value ≤ hi)
    | _, _ => true

/-- Data of the duplicate module's `VexFunction` class,
`src/unnamed/part_000` lines 137-144 (callable omitted as in `Vex`). -/
structure VexFunction where
  name : String
  returnType : String
  parameters : List (String × String)

/-- `VexFunction.getCppSignature`, `src/unnamed/part_000` lines 149-154. -/
def VexFunction.getCppSignature (f : VexFunction) : String :=
  let params := jsJoin ", " (f.parameters.map (fun p => getCppType p.2 ++ " " ++ p.1))
  getCppType f.returnType ++ " " ++ f.name ++ "(" ++ params ++ ")"

/-- `isIntegerType`, `src/unnamed/part_000` lines 160-162. -/
def isIntegerType (typeName : String) : Bool :=
  ["int", "short", "long"].contains typeName

/-- `isFloatingType`, `src/unnamed/part_000` lines 164-166. -/
def isFloatingType (typeName : String) : Bool :=
  ["float", "double"].contains typeName

/-- `isNumericType`, `src/unnamed/part_000` lines 168-170. -/
def isNumericType (typeName : String) : Bool :=
  isIntegerType typeName || isFloatingType typeName

/-- `isPrimitiveType`, `src/unnamed/part_000` lines 172-174: same
prototype-chain-aware `in` as `Vex.isPrimitiveType`. -/
def isPrimitiveType (typeName : String) : Bool :=
  (TYPE_METADATA typeName).isSome || objectProtoKeys.contains typeName

end Liquid

namespace TypeMapper

/-!
Embedding of `src/TypeMapper.ts`.  The mapper methods verified here
(`mapTypeNode`, `inferFromExpression`, `getVariableType`,
`getFunctionReturnType`, `getParameterType`) read only the syntactic
shape of the node handed to them; they never touch the instance's
`ts.TypeChecker`/`ts.Program` fields (those are used only by the separate
checker-based `mapType`/`typeToString` path, which no claim exercises),
so they are modelled as plain functions over an AST.

The AST mirrors the node categories the code branches on.  A type node
that is neither an array type nor a tuple type is represented by its
lexical text (`typeNode.getText()`), constructor `TypeNode.named`.  A
numeric literal carries its lexical text `expr.text` together with the
parsed value `parseFloat(expr.text)` as a rational field `value`; the
code reads the text only through `includes('.')` and the value only
through `Number.isInteger` and order comparisons, and every concrete
(text, value) pair used below agrees with `parseFloat` on exactly those
observations.  A call expression carries the callee's lexical text
(`expr.expression.getText()`) and its argument expressions (which the
code never reads).  `Expr.other` covers every remaining expression kind
(identifiers, binary expressions, …), which all fall through to the
final `return 'auto'`.
-/

/-- Type-annotation nodes as branched on by `mapTypeNode`
(`src/TypeMapper.ts` lines 47-79). -/
inductive TypeNode where
  | named : String → TypeNode
  | array : TypeNode → TypeNode
  | tuple : List TypeNode → TypeNode

/-- The own entries of the `typeMap` record literal of `mapTypeNode`,
`src/TypeMapper.ts` lines 51-64.  The bare lookup `typeMap[typeText]`
(line 78) is modelled at the call site by `jsGetOr`, which adds the
inherited `Object.prototype` keys the literal also exposes. -/
def tsTypeMap (s : String) : Option String :=
  if s = "int" then some "int32_t"
  else if s = "short" then some "int16_t"
  else if s = "long" then some "int64_t"
  else if s = "float" then some "float"
  else if s = "double" then some "double"
  else if s = "bool" then some "bool"
  else if s = "boolean" then some "bool"
  else if s = "char" then some "char"
  else if s = "string" then some "std::string"
  else if s = "number" then some "double"
  else if s = "void" then some "void"
  else if s = "any" then some "auto"
  else none

/-- `mapTypeNode`, `src/TypeMapper.ts` lines 47-79: array types wrap the
recursively mapped element type in the template literal
`std::vector<${...}>` (which string-coerces its interpolant), tuple
types wrap the element-wise mapping in `std::tuple<...>` joined by
`join(', ')` (which string-coerces each element), and any other node is
looked up by its text via `typeMap[typeText] || 'auto'` — a bare lookup
that returns the inherited `Object.prototype` member for a text such as
`toString`. -/
def mapTypeNode : TypeNode → JsRet
  | .named text => jsGetOr tsTypeMap text "auto"
  | .array elementType => .str ("std::vector<" ++ jsCoerce (mapTypeNode elementType) ++ ">")
  | .tuple elements =>
    .str ("std::tuple<"
      ++ jsJoin ", " (elements.attach.map (fun x => jsCoerce (mapTypeNode x.1))) ++ ">")
decreasing_by
  simp_wf
  have := List.sizeOf_lt_of_mem x.2
  simp only [TypeNode.tuple.sizeOf_spec]
  omega

/-- Expressions as branched on by `inferFromExpression`
(`src/TypeMapper.ts` lines 84-149). -/
inductive Expr where
  | stringLit : String → Expr
  | numericLit : (text : String) → (value : ℚ) → Expr
  | boolLit : Bool → Expr
  | arrayLit : List Expr → Expr
  | callExpr : (calleeText : String) → (args : List Expr) → Expr
  | other : Expr

/-- The own entries of the `typeConstructors` record literal of the
call-expression branch, `src/TypeMapper.ts` lines 132-141.  Note that it
contains `'string'` in addition to the seven branded-constructor names.
The bare lookup `typeConstructors[funcName]` (lines 143-145) is modelled
at the call site by `jsGetOr`, which adds the inherited
`Object.prototype` keys. -/
def typeConstructors (s : String) : Option String :=
  if s = "int" then some "int32_t"
  else if s = "short" then some "int16_t"
  else if s = "long" then some "int64_t"
  else if s = "float" then some "float"
  else if s = "double" then some "double"
  else if s = "bool" then some "bool"
  else if s = "char" then some "char"
  else if s = "string" then some "std::string"
  else none

/-- `inferFromExpression`, `src/TypeMapper.ts` lines 84-149.  The
non-empty array-literal branch wraps the first element's inference in
the string-coercing template literal `std::vector<${...}>`; the
call-expression branch is the truthiness-guarded bare lookup
`if (typeConstructors[funcName]) return typeConstructors[funcName]`
falling through to `return 'auto'`. -/
def inferFromExpression : Expr → JsRet
  | .stringLit _ => .str "std::string"
  | .numericLit text value =>
    .str (if jsIncludes text '.' then "double"
      else if value.isInt then
        if -32768 ≤ value ∧ value ≤ 32767 then "int16_t"
        else if -2147483648 ≤ value ∧ value ≤ 2147483647 then "int32_t"
        else "int64_t"
      else "double")
  | .boolLit _ => .str "bool"
  | .arrayLit [] => .str "std::vector<auto>"
  | .arrayLit (e :: _) => .str ("std::vector<" ++ jsCoerce (inferFromExpression e) ++ ">")
  | .callExpr calleeText _ => jsGetOr typeConstructors calleeText "auto"
  | .other => .str "auto"

/-- A variable declaration as read by `getVariableType`: an optional
explicit type annotation (`declaration.type`) and an optional
initializer (`declaration.initializer`). -/
structure VariableDeclaration where
  type : Option TypeNode
  initializer : Option Expr

/-- `getVariableType`, `src/TypeMapper.ts` lines 30-42. -/
def getVariableType (d : VariableDeclaration) : JsRet :=
  match d.type with
  | some t => mapTypeNode t
  | none =>
    match d.initializer with
    | some e => inferFromExpression e
    | none => .str "auto"

/-- A function declaration as read by `getFunctionReturnType`: the
optional return-type annotation (`func.type`) and the body's statements,
which the method never reads (kept to state that the result is
independent of the body). -/
structure FunctionDeclaration where
  type : Option TypeNode
  body : List Expr

/-- `getFunctionReturnType`, `src/TypeMapper.ts` lines 188-193. -/
def getFunctionReturnType (f : FunctionDeclaration) : JsRet :=
  match f.type with
  | some t => mapTypeNode t
  | none => .str "auto"

/-- A parameter declaration as read by `getParameterType`: the optional
type annotation (`param.type`). -/
structure ParameterDeclaration where
  name : String
  type : Option TypeNode

/-- `getParameterType`, `src/TypeMapper.ts` lines 198-203. -/
def getParameterType (p : ParameterDeclaration) : JsRet :=
  match p.type with
  | some t => mapTypeNode t
  | none => .str "auto"

/-- Unfolding lemma for the tuple case of `mapTypeNode`, with the
`attach` used for termination removed. -/
theorem mapTypeNode_tuple (elements : List TypeNode) :
    mapTypeNode (.tuple elements)
      = .str ("std::tuple<"
          ++ jsJoin ", " (elements.map (fun t => jsCoerce (mapTypeNode t))) ++ ">") := by
  rw [mapTypeNode]
  rw [List.attach_map_val elements (fun t => jsCoerce (mapTypeNode t))]

end TypeMapper

/-!  ## Claim theorems -/

/-- Specification of the common shape of the bounded integer
constructors (`int`, `short`, `long`): format check first, then the
range check, then success. -/
theorem boundedCtorSpec (lo hi v : ℚ) (f : ℚ → Except VexError ℚ)
    (hf : f v = if !v.isInt then .error .invalidFormat
      else if v < lo ∨ v > hi then .error (.outOfRange "overflow") else .ok v) :
    (f v = .error .invalidFormat ↔ v.isInt = false) ∧
    (f v = .error (.outOfRange "overflow") ↔ v.isInt = true ∧ (v < lo ∨ v > hi)) ∧
    (f v = .ok v ↔ v.isInt = true ∧ lo ≤ v ∧ v ≤ hi) := by
  rw [hf]
  cases hB : v.isInt
  · simp
  · rw [if_neg (by simp [hB])]
    by_cases hr : v < lo ∨ v > hi
    · rw [if_pos hr]
      refine ⟨by simp, by simp [hr], ?_⟩
      refine iff_of_false (by simp) ?_
      rintro ⟨-, h1, h2⟩
      rcases hr with hr | hr <;> linarith
    · rw [if_neg hr]
      push_neg at hr
      refine ⟨iff_of_false (by simp) (by simp), ?_, by simp [hr.1, hr.2]⟩
      refine iff_of_false (by simp) ?_
      rintro ⟨-, h | h⟩
      · linarith [hr.1]
      · linarith [hr.2]

/-- Claim C6: for every number v, `short v` throws `InvalidFormat`
(`TypeError`) iff v is not a whole number; for whole-number v it throws
`OutOfRange` (`RangeError`) iff v < −32768 or v > 32767, and otherwise
succeeds returning v unchanged; `short 32768` and `short (−32769)` fail
with `OutOfRange`; and the analogous contract holds for `int` with
bounds [−2147483648, 2147483647], with `int v` failing with
`InvalidFormat` for every non-integer v. -/
theorem short_int_contract (v : ℚ) :
    (Vex.short v = .error .invalidFormat ↔ v.isInt = false) ∧
    (Vex.short v = .error (.outOfRange "overflow")
      ↔ v.isInt = true ∧ (v < -32768 ∨ v > 32767)) ∧
    (Vex.short v = .ok v ↔ v.isInt = true ∧ -32768 ≤ v ∧ v ≤ 32767) ∧
    Vex.short 32768 = .error (.outOfRange "overflow") ∧
    Vex.short (-32769) = .error (.outOfRange "overflow") ∧
    (Vex.int v = .error .invalidFormat ↔ v.isInt = false) ∧
    (Vex.int v = .error (.outOfRange "overflow")
      ↔ v.isInt = true ∧ (v < -2147483648 ∨ v > 2147483647)) ∧
    (Vex.int v = .ok v ↔ v.isInt = true ∧ -2147483648 ≤ v ∧ v ≤ 2147483647) := by
  obtain ⟨s1, s2, s3⟩ := boundedCtorSpec (-32768) 32767 v Vex.short rfl
  obtain ⟨i1, i2, i3⟩ := boundedCtorSpec (-2147483648) 2147483647 v Vex.int rfl
  exact ⟨s1, s2, s3, by rfl, by rfl, i1, i2, i3⟩

/-- Claim C7: for every number v, `float v` throws `OutOfRange` tagged
"overflow" iff |v| > 3.4028235e38, throws `OutOfRange` tagged
"underflow" iff 0 < |v| < 1.175494e-38, and otherwise succeeds returning
v unchanged; `float 3.4028236e38` fails with overflow, `float 1e-40`
fails with underflow, `float 0` succeeds, and `float` never throws
`InvalidFormat` (no whole-number check).  The bounds appear as their
exact rational values `Vex.floatMax`/`Vex.floatMinPos`
(see `floatMax_floatMinPos_eq`), and the test inputs as the exact
rationals `3.4028236e38 = mkRat (34028236 * 10 ^ 31) 1` and
`1e-40 = mkRat 1 (10 ^ 40)`. -/
theorem float_range_contract (v : ℚ) :
    (Vex.float v = .error (.outOfRange "overflow") ↔ |v| > Vex.floatMax) ∧
    (Vex.float v = .error (.outOfRange "underflow")
      ↔ 0 < |v| ∧ |v| < Vex.floatMinPos) ∧
    (Vex.float v = .ok v
      ↔ ¬ |v| > Vex.floatMax ∧ ¬ (0 < |v| ∧ |v| < Vex.floatMinPos)) ∧
    (∀ w : ℚ, Vex.float w ≠ .error .invalidFormat) ∧
    Vex.float (mkRat (34028236 * 10 ^ 31) 1) = .error (.outOfRange "overflow") ∧
    Vex.float (mkRat 1 (10 ^ 40)) = .error (.outOfRange "underflow") ∧
    Vex.float 0 = .ok 0 := by
  have hlt : Vex.floatMinPos < Vex.floatMax := by decide
  refine ⟨?_, ?_, ?_, ?_, by rfl, by rfl, by rfl⟩
  · simp only [Vex.float, mathAbs_eq_abs]
    by_cases h1 : |v| > Vex.floatMax
    · rw [if_pos h1]
      exact iff_of_true rfl h1
    · rw [if_neg h1]
      by_cases h2 : 0 < |v| ∧ |v| < Vex.floatMinPos
      · rw [if_pos h2]
        exact iff_of_false (by simp) h1
      · rw [if_neg h2]
        exact iff_of_false (by simp) h1
  · simp only [Vex.float, mathAbs_eq_abs]
    by_cases h1 : |v| > Vex.floatMax
    · rw [if_pos h1]
      refine iff_of_false (by simp) ?_
      rintro ⟨-, h3⟩
      linarith
    · rw [if_neg h1]
      by_cases h2 : 0 < |v| ∧ |v| < Vex.floatMinPos
      · rw [if_pos h2]
        exact iff_of_true rfl h2
      · rw [if_neg h2]
        exact iff_of_false (by simp) h2
  · simp only [Vex.float, mathAbs_eq_abs]
    by_cases h1 : |v| > Vex.floatMax
    · rw [if_pos h1]
      refine iff_of_false (by simp) ?_
      rintro ⟨ha, -⟩
      exact ha h1
    · rw [if_neg h1]
      by_cases h2 : 0 < |v| ∧ |v| < Vex.floatMinPos
      · rw [if_pos h2]
        refine iff_of_false (by simp) ?_
        rintro ⟨-, hb⟩
        exact hb h2
      · rw [if_neg h2]
        exact iff_of_true rfl ⟨h1, h2⟩
  · intro w
    simp only [Vex.float]
    split_ifs <;> simp

/-- Claim C9 refuted as stated: `toString` is not one of the nine
metadata-table keys, yet `"toString" in TYPE_METADATA` is true in the
source because the JS `in` operator finds the inherited
`Object.prototype.toString`, so `isPrimitiveType "toString"` returns
true — refuting "for every string outside this set it returns
false". -/
theorem isPrimitiveType_counterexample :
    Vex.isPrimitiveType "toString" = true ∧
    ("toString" : String)
      ∉ ["int", "short", "long", "float", "double", "bool", "char", "string", "void"] := by
  constructor
  · rfl
  · decide

/-- The metadata table's own keys are exactly the nine primitive
names. -/
theorem TYPE_METADATA_isSome_iff (s : String) :
    (Vex.TYPE_METADATA s).isSome = true
      ↔ s ∈ ["int", "short", "long", "float", "double", "bool", "char", "string", "void"] := by
  simp only [Vex.TYPE_METADATA]
  split_ifs with h1 h2 h3 h4 h5 h6 h7 h8 h9 <;> simp_all

/-- Claim C9 (amended): `isPrimitiveType s` is true exactly when s is
one of the nine metadata-table keys {int, short, long, float, double,
bool, char, string, void} or an inherited `Object.prototype` property
name (the JS `in` operator consults the prototype chain), and false for
every other string. -/
theorem isPrimitiveType_iff_table_key (s : String) :
    Vex.isPrimitiveType s = true
      ↔ s ∈ ["int", "short", "long", "float", "double", "bool", "char", "string", "void"]
        ∨ s ∈ objectProtoKeys := by
  simp only [Vex.isPrimitiveType, Bool.or_eq_true]
  refine or_congr (TYPE_METADATA_isSome_iff s) ?_
  constructor
  · intro h
    simpa using h
  · intro h
    simpa using h

/-- Claim C10: the unnamed duplicate module (`src/unnamed/part_000`)
implements the same type system as `src/Types.ts`: each of its
constructors, its metadata table, `getCppType`, `isWithinBounds`, the
classification predicates, and its function-wrapper signature rendering
agree with the corresponding definition of `src/Types.ts` on every
input. -/
theorem unnamed_module_equiv :
    (∀ v, Liquid.int v = Vex.int v) ∧
    (∀ v, Liquid.short v = Vex.short v) ∧
    (∀ v, Liquid.long v = Vex.long v) ∧
    (∀ v, Liquid.float v = Vex.float v) ∧
    (∀ v, Liquid.double v = Vex.double v) ∧
    (∀ b, Liquid.bool b = Vex.bool b) ∧
    (∀ s, Liquid.char s = Vex.char s) ∧
    (∀ n, Liquid.TYPE_METADATA n = Vex.TYPE_METADATA n) ∧
    (∀ n, Liquid.getCppType n = Vex.getCppType n) ∧
    (∀ v n, Liquid.isWithinBounds v n = Vex.isWithinBounds v n) ∧
    (∀ n, Liquid.isIntegerType n = Vex.isIntegerType n) ∧
    (∀ n, Liquid.isFloatingType n = Vex.isFloatingType n) ∧
    (∀ n, Liquid.isNumericType n = Vex.isNumericType n) ∧
    (∀ n, Liquid.isPrimitiveType n = Vex.isPrimitiveType n) ∧
    (∀ nm rt ps, (Liquid.VexFunction.mk nm rt ps).getCppSignature
      = (Vex.VexFunction.mk nm rt ps).getCppSignature) :=
  ⟨fun _ => rfl, fun _ => rfl, fun _ => rfl, fun _ => rfl, fun _ => rfl, fun _ => rfl,
    fun _ => rfl, fun _ => rfl, fun _ => rfl, fun _ _ => rfl, fun _ => rfl, fun _ => rfl,
    fun _ => rfl, fun _ => rfl, fun _ _ _ => rfl⟩

/-- Claim C2: annotation mapping is structurally recursive and
depth-exact: an array-of-T node maps to the string
`std::vector<M(T)>` (the template literal string-coercing the
recursively mapped element type), a tuple-of-(T1..Tn) node maps to the
string `std::tuple<M(T1), ..., M(Tn)>` with the element-wise mappings
string-coerced and joined by `', '` in order, `short[]` maps to
`std::vector<int16_t>` and `short[][]` to
`std::vector<std::vector<int16_t>>`. -/
theorem mapTypeNode_structural :
    (∀ t, TypeMapper.mapTypeNode (.array t)
      = .str ("std::vector<" ++ jsCoerce (TypeMapper.mapTypeNode t) ++ ">")) ∧
    (∀ ts, TypeMapper.mapTypeNode (.tuple ts)
      = .str ("std::tuple<"
          ++ jsJoin ", " (ts.map (fun t => jsCoerce (TypeMapper.mapTypeNode t))) ++ ">")) ∧
    TypeMapper.mapTypeNode (.array (.named "short")) = .str "std::vector<int16_t>" ∧
    TypeMapper.mapTypeNode (.array (.array (.named "short")))
      = .str "std::vector<std::vector<int16_t>>" ∧
    TypeMapper.mapTypeNode (.tuple [.named "int", .named "string"])
      = .str "std::tuple<int32_t, std::string>" := by
  have harr : ∀ t, TypeMapper.mapTypeNode (.array t)
      = .str ("std::vector<" ++ jsCoerce (TypeMapper.mapTypeNode t) ++ ">") := by
    intro t
    rw [TypeMapper.mapTypeNode]
  have hnamed : ∀ s, TypeMapper.mapTypeNode (.named s)
      = jsGetOr TypeMapper.tsTypeMap s "auto" := by
    intro s
    rw [TypeMapper.mapTypeNode]
  refine ⟨harr, TypeMapper.mapTypeNode_tuple, ?_, ?_, ?_⟩
  · rw [harr, hnamed]
    rfl
  · rw [harr, harr, hnamed]
    rfl
  · rw [TypeMapper.mapTypeNode_tuple]
    simp only [List.map]
    rw [hnamed, hnamed]
    rfl

/-- Claim C1 refuted as stated: the numeric literal `1e-5` has no `'.'`
in its lexical text, so the claim requires the smallest integer
representation containing its value (`int16_t`, since
`parseFloat("1e-5")` lies in [−32768, 32767]) — but the code returns
`'double'` because the parsed value is not a whole number.  The parsed
value is modelled as the exact rational `mkRat 1 100000`; the code reads
it only through `Number.isInteger` (false, both for the exact rational
and for the IEEE double `parseFloat` produces, which lies strictly
between 0 and 1) and the range comparisons recorded below. -/
theorem numericLit_counterexample :
    (jsIncludes "1e-5" '.') = false ∧
    (-32768 ≤ mkRat 1 100000 ∧ (mkRat 1 100000 : ℚ) ≤ 32767) ∧
    TypeMapper.inferFromExpression (.numericLit "1e-5" (mkRat 1 100000)) = .str "double" ∧
    TypeMapper.inferFromExpression (.numericLit "1e-5" (mkRat 1 100000)) ≠ .str "int16_t" := by
  have h : TypeMapper.inferFromExpression (.numericLit "1e-5" (mkRat 1 100000))
      = .str "double" := by
    rw [TypeMapper.inferFromExpression]
    rw [if_neg (by decide), if_neg (by decide)]
  refine ⟨by decide, ⟨by decide, by decide⟩, h, ?_⟩
  rw [h]
  decide

/-- Claim C1 (amended): for a numeric literal, a `'.'` in the lexical
text yields `'double'`; otherwise, when the parsed value is a whole
number, the smallest integer representation containing it is returned
(inclusive bounds: `int16_t` on [−32768, 32767], else `int32_t` on
int32 bounds, else `int64_t`); a dot-free literal whose parsed value is
not a whole number (e.g. an exponent form like `1e-5`) also yields
`'double'`.  The literal `"42"` maps to `int16_t`, `"42.0"` to
`double`, `"100000"` to `int32_t`. -/
theorem numericLit_inference (text : String) (v : ℚ) :
    (jsIncludes text '.' = true →
      TypeMapper.inferFromExpression (.numericLit text v) = .str "double") ∧
    (jsIncludes text '.' = false → v.isInt = true → -32768 ≤ v → v ≤ 32767 →
      TypeMapper.inferFromExpression (.numericLit text v) = .str "int16_t") ∧
    (jsIncludes text '.' = false → v.isInt = true → ¬(-32768 ≤ v ∧ v ≤ 32767) →
      -2147483648 ≤ v → v ≤ 2147483647 →
      TypeMapper.inferFromExpression (.numericLit text v) = .str "int32_t") ∧
    (jsIncludes text '.' = false → v.isInt = true →
      ¬(-2147483648 ≤ v ∧ v ≤ 2147483647) →
      TypeMapper.inferFromExpression (.numericLit text v) = .str "int64_t") ∧
    (jsIncludes text '.' = false → v.isInt = false →
      TypeMapper.inferFromExpression (.numericLit text v) = .str "double") ∧
    TypeMapper.inferFromExpression (.numericLit "42" 42) = .str "int16_t" ∧
    TypeMapper.inferFromExpression (.numericLit "42.0" 42) = .str "double" ∧
    TypeMapper.inferFromExpression (.numericLit "100000" 100000) = .str "int32_t" := by
  refine ⟨?_, ?_, ?_, ?_, ?_, ?_, ?_, ?_⟩
  · intro hdot
    rw [TypeMapper.inferFromExpression, if_pos hdot]
  · intro hdot hInt hlo hhi
    rw [TypeMapper.inferFromExpression, if_neg (by simp [hdot]), if_pos hInt,
      if_pos ⟨hlo, hhi⟩]
  · intro hdot hInt h16 hlo hhi
    rw [TypeMapper.inferFromExpression, if_neg (by simp [hdot]), if_pos hInt,
      if_neg h16, if_pos ⟨hlo, hhi⟩]
  · intro hdot hInt h32
    have h16 : ¬(-32768 ≤ v ∧ v ≤ 32767) := by
      rintro ⟨hlo, hhi⟩
      exact h32 ⟨by linarith, by linarith⟩
    rw [TypeMapper.inferFromExpression, if_neg (by simp [hdot]), if_pos hInt,
      if_neg h16, if_neg h32]
  · intro hdot hInt
    rw [TypeMapper.inferFromExpression, if_neg (by simp [hdot]), if_neg (by simp [hInt])]
  · rw [TypeMapper.inferFromExpression, if_neg (by decide), if_pos (by rfl),
      if_pos (by constructor <;> decide)]
  · rw [TypeMapper.inferFromExpression, if_pos (by decide)]
  · rw [TypeMapper.inferFromExpression, if_neg (by decide), if_pos (by rfl),
      if_neg (by decide), if_pos (by constructor <;> decide)]

/-- Witness for `numericLit_inference`: the integer-width cases at the
concrete literals `"42"` and `"100000"`, with every hypothesis
discharged. -/
theorem numericLit_inference_witness :
    TypeMapper.inferFromExpression (.numericLit "42" (42 : ℚ)) = .str "int16_t" ∧
    TypeMapper.inferFromExpression (.numericLit "100000" (100000 : ℚ)) = .str "int32_t" :=
  ⟨(numericLit_inference "42" 42).2.1 (by decide) (by rfl) (by decide) (by decide),
   (numericLit_inference "100000" 100000).2.2.1 (by decide) (by rfl) (by decide)
     (by decide) (by decide)⟩

/-- Claim C4 refuted as stated: the callee name `string` is outside the
Bounded Value Constructor set {int, short, long, float, double, bool,
char}, so the claim requires the generic fallback `'auto'` — but the
code's `typeConstructors` record also contains `'string'` and returns
`'std::string'` for it. -/
theorem callExpr_string_counterexample :
    TypeMapper.inferFromExpression (.callExpr "string" []) = .str "std::string" ∧
    TypeMapper.inferFromExpression (.callExpr "string" []) ≠ .str "auto" := by
  have h : TypeMapper.inferFromExpression (.callExpr "string" []) = .str "std::string" := by
    rw [TypeMapper.inferFromExpression]
    rfl
  refine ⟨h, ?_⟩
  rw [h]
  decide

/-- The `typeConstructors` record has exactly the eight keys
{int, short, long, float, double, bool, char, string}. -/
theorem typeConstructors_not_mem (nm : String)
    (h : nm ∉ ["int", "short", "long", "float", "double", "bool", "char", "string"]) :
    TypeMapper.typeConstructors nm = none := by
  simp only [TypeMapper.typeConstructors]
  split_ifs with h1 h2 h3 h4 h5 h6 h7 h8
  · subst h1; exact absurd (by decide) h
  · subst h2; exact absurd (by decide) h
  · subst h3; exact absurd (by decide) h
  · subst h4; exact absurd (by decide) h
  · subst h5; exact absurd (by decide) h
  · subst h6; exact absurd (by decide) h
  · subst h7; exact absurd (by decide) h
  · subst h8; exact absurd (by decide) h
  · rfl

/-- Claim C4 (amended): a call expression whose callee name is one of
the Bounded Value Constructor names {int, short, long, float, double,
bool, char} maps to that constructor's target representation, and the
callee name `string` additionally maps to `std::string`; a callee name
that is an inherited `Object.prototype` property name (e.g. `toString`)
yields that inherited member itself — the bare `typeConstructors`
lookup finds it and it is truthy — rather than `'auto'`; a callee name
outside these eight own keys and the prototype keys yields the generic
fallback `'auto'`.  The result is independent of the call's
arguments. -/
theorem callExpr_inference (nm : String) (args args2 : List TypeMapper.Expr) :
    (nm ∉ ["int", "short", "long", "float", "double", "bool", "char", "string"] →
      nm ∉ objectProtoKeys →
      TypeMapper.inferFromExpression (.callExpr nm args) = .str "auto") ∧
    (nm ∉ ["int", "short", "long", "float", "double", "bool", "char", "string"] →
      nm ∈ objectProtoKeys →
      TypeMapper.inferFromExpression (.callExpr nm args) = .protoMember nm) ∧
    TypeMapper.inferFromExpression (.callExpr nm args)
      = TypeMapper.inferFromExpression (.callExpr nm args2) ∧
    TypeMapper.inferFromExpression (.callExpr "int" args) = .str "int32_t" ∧
    TypeMapper.inferFromExpression (.callExpr "short" args) = .str "int16_t" ∧
    TypeMapper.inferFromExpression (.callExpr "long" args) = .str "int64_t" ∧
    TypeMapper.inferFromExpression (.callExpr "float" args) = .str "float" ∧
    TypeMapper.inferFromExpression (.callExpr "double" args) = .str "double" ∧
    TypeMapper.inferFromExpression (.callExpr "bool" args) = .str "bool" ∧
    TypeMapper.inferFromExpression (.callExpr "char" args) = .str "char" ∧
    TypeMapper.inferFromExpression (.callExpr "string" args) = .str "std::string" := by
  have heq : ∀ (s : String) (as : List TypeMapper.Expr),
      TypeMapper.inferFromExpression (.callExpr s as)
        = jsGetOr TypeMapper.typeConstructors s "auto" := by
    intro s as
    rw [TypeMapper.inferFromExpression]
  refine ⟨?_, ?_, ?_, ?_, ?_, ?_, ?_, ?_, ?_, ?_, ?_⟩
  · intro h hp
    rw [heq]
    simp only [jsGetOr, jsRecordGet, typeConstructors_not_mem nm h]
    rw [if_neg (by simpa using hp)]
  · intro h hp
    rw [heq]
    simp only [jsGetOr, jsRecordGet, typeConstructors_not_mem nm h]
    rw [if_pos (by simpa using hp)]
  · rw [heq, heq]
  all_goals rw [heq]; rfl

/-- Witness for `callExpr_inference`: the fallback case at the concrete
callee name `foo` and the prototype-chain case at `toString`, with the
membership hypotheses discharged. -/
theorem callExpr_inference_witness :
    TypeMapper.inferFromExpression (.callExpr "foo" []) = .str "auto" ∧
    TypeMapper.inferFromExpression (.callExpr "toString" []) = .protoMember "toString" :=
  ⟨(callExpr_inference "foo" [] []).1 (by decide) (by decide),
   (callExpr_inference "toString" [] []).2.1 (by decide) (by decide)⟩

/-- A string append whose left part is nonempty is nonempty. -/
theorem append_ne_empty_left (a b : String) (ha : a ≠ "") : a ++ b ≠ "" := by
  intro hc
  apply ha
  have hl := congrArg String.length hc
  rw [String.length_append] at hl
  have hz : ("" : String).length = 0 := rfl
  rw [hz] at hl
  have h0 : a.length = 0 := by omega
  cases a with
  | mk data =>
    cases data with
    | nil => rfl
    | cons c cs => simp [String.length] at h0

/-- `okRet` holds of a string result iff the string is nonempty. -/
theorem okRet_str (s : String) : okRet (.str s) = true ↔ s ≠ "" := by
  simp [okRet]

/-- A truthiness-guarded bare lookup with a nonempty default always
yields an accounted-for result: an own entry or the default (nonempty
strings), or an inherited `Object.prototype` member (whose name is a
prototype key by construction). -/
theorem okRet_jsGetOr (f : String → Option String) (key dflt : String) (hd : dflt ≠ "") :
    okRet (jsGetOr f key dflt) = true := by
  unfold jsGetOr jsRecordGet
  cases hk : f key with
  | some s =>
    dsimp only
    split_ifs with h
    · exact (okRet_str dflt).mpr hd
    · exact (okRet_str s).mpr h
  | none =>
    dsimp only
    split_ifs with h
    · simpa [okRet] using h
    · exact (okRet_str dflt).mpr hd

/-- Every result of `mapTypeNode` is a nonempty string or an inherited
prototype member. -/
theorem okRet_mapTypeNode (t : TypeMapper.TypeNode) :
    okRet (TypeMapper.mapTypeNode t) = true := by
  cases t with
  | named s =>
    rw [TypeMapper.mapTypeNode]
    exact okRet_jsGetOr _ _ _ (by decide)
  | array e =>
    rw [TypeMapper.mapTypeNode]
    exact (okRet_str _).mpr (append_ne_empty_left _ _ (append_ne_empty_left _ _ (by decide)))
  | tuple ts =>
    rw [TypeMapper.mapTypeNode_tuple]
    exact (okRet_str _).mpr (append_ne_empty_left _ _ (append_ne_empty_left _ _ (by decide)))

/-- Every result of `inferFromExpression` is a nonempty string or an
inherited prototype member. -/
theorem okRet_inferFromExpression (e : TypeMapper.Expr) :
    okRet (TypeMapper.inferFromExpression e) = true := by
  cases e with
  | stringLit s => rw [TypeMapper.inferFromExpression]; decide
  | numericLit text v =>
    rw [TypeMapper.inferFromExpression]
    refine (okRet_str _).mpr ?_
    split_ifs <;> decide
  | boolLit b => rw [TypeMapper.inferFromExpression]; decide
  | arrayLit els =>
    cases els with
    | nil => rw [TypeMapper.inferFromExpression]; decide
    | cons e rest =>
      rw [TypeMapper.inferFromExpression]
      exact (okRet_str _).mpr (append_ne_empty_left _ _ (append_ne_empty_left _ _ (by decide)))
  | callExpr callee args =>
    rw [TypeMapper.inferFromExpression]
    exact okRet_jsGetOr _ _ _ (by decide)
  | other => rw [TypeMapper.inferFromExpression]; decide

/-- Claim C5 refuted as stated: for the annotation text `toString` the
bare `typeMap` lookup finds the inherited `Object.prototype.toString`
function — truthy — so `mapTypeNode` returns that function object, not
a concrete type-name string and not the fallback `'auto'`; the claimed
postcondition "returns a concrete type-name string or 'auto'" fails.
(The engine still does not throw there.) -/
theorem mapper_total_counterexample :
    TypeMapper.mapTypeNode (.named "toString") = .protoMember "toString" ∧
    (TypeMapper.mapTypeNode (.named "toString")).isStr = false := by
  constructor
  · rw [TypeMapper.mapTypeNode]
    rfl
  · rw [TypeMapper.mapTypeNode]
    rfl

/-- Claim C5 (amended): the mapping engine is total and never raises:
the annotation-mapping and literal-inference entry points are total
functions (recursion on the node, accepted by Lean's termination
checker), no input reaches a throwing path (the embedded functions
return a value, never an exception), and every input — including the
empty array literal and arbitrarily nested shapes — yields either a
concrete nonempty type-name string (or the fallback `'auto'`), or,
when a bare lookup hits an annotation or callee text naming an
inherited `Object.prototype` property, that inherited member rather
than a string. -/
theorem mapper_total :
    (∀ t, okRet (TypeMapper.mapTypeNode t) = true) ∧
    (∀ e, okRet (TypeMapper.inferFromExpression e) = true) ∧
    (∀ d, okRet (TypeMapper.getVariableType d) = true) ∧
    (∀ f, okRet (TypeMapper.getFunctionReturnType f) = true) ∧
    (∀ p, okRet (TypeMapper.getParameterType p) = true) ∧
    TypeMapper.inferFromExpression (.arrayLit []) = .str "std::vector<auto>" ∧
    TypeMapper.getVariableType ⟨none, none⟩ = .str "auto" := by
  refine ⟨okRet_mapTypeNode, okRet_inferFromExpression, ?_, ?_, ?_, by rfl, by rfl⟩
  · rintro ⟨ty, init⟩
    cases ty with
    | some t => exact okRet_mapTypeNode t
    | none =>
      cases init with
      | some e => exact okRet_inferFromExpression e
      | none => decide
  · rintro ⟨ty, body⟩
    cases ty with
    | some t => exact okRet_mapTypeNode t
    | none => exact (by decide : okRet (.str "auto") = true)
  · rintro ⟨nm, ty⟩
    cases ty with
    | some t => exact okRet_mapTypeNode t
    | none => exact (by decide : okRet (.str "auto") = true)

/-- The parameter-list rendering as the spec words it: each parameter
renders as `<mappedType> <name>`, parameters joined by `', '` in
declaration order. -/
def renderParamListSpec : List (String × String) → String
  | [] => ""
  | [p] => Vex.getCppType p.2 ++ " " ++ p.1
  | p :: q :: rest =>
    Vex.getCppType p.2 ++ " " ++ p.1 ++ ", " ++ renderParamListSpec (q :: rest)

/-- The code's `map`-then-`join` agrees with the spec's element-wise
rendering. -/
theorem jsJoin_map_eq_renderParamListSpec :
    ∀ ps : List (String × String),
      jsJoin ", " (ps.map (fun p => Vex.getCppType p.2 ++ " " ++ p.1))
        = renderParamListSpec ps
  | [] => rfl
  | [_] => rfl
  | p :: q :: rest =>
    congrArg (fun s => Vex.getCppType p.2 ++ " " ++ p.1 ++ ", " ++ s)
      (jsJoin_map_eq_renderParamListSpec (q :: rest))

/-- Claim C8: `getCppSignature` is a pure function of the descriptor's
fields producing exactly
`<targetRepresentation(returnType)> <name>(<p1>, ..., <pn>)` with each
parameter rendered as `<targetRepresentation(type)> <name>` and joined
by `', '` in declaration order; for name "add", return type "int" and
parameters [("a","int"), ("b","int")] it yields exactly
`int32_t add(int32_t a, int32_t b)`. -/
theorem getCppSignature_spec :
    (∀ f : Vex.VexFunction, f.getCppSignature
      = Vex.getCppType f.returnType ++ " " ++ f.name ++ "("
        ++ renderParamListSpec f.parameters ++ ")") ∧
    (Vex.VexFunction.mk "add" "int" [("a", "int"), ("b", "int")]).getCppSignature
      = "int32_t add(int32_t a, int32_t b)" := by
  constructor
  · intro f
    simp only [Vex.VexFunction.getCppSignature]
    rw [jsJoin_map_eq_renderParamListSpec]
  · rfl

/-- Claim C3: resolution precedence for a variable declaration is
annotation, then initializer inference, then `'auto'`; function return
and parameter types use only the annotation path, yielding `'auto'` when
unannotated regardless of the function body. -/
theorem resolution_precedence :
    (∀ t init, TypeMapper.getVariableType ⟨some t, init⟩ = TypeMapper.mapTypeNode t) ∧
    (∀ e, TypeMapper.getVariableType ⟨none, some e⟩ = TypeMapper.inferFromExpression e) ∧
    TypeMapper.getVariableType ⟨none, none⟩ = .str "auto" ∧
    (∀ t body, TypeMapper.getFunctionReturnType ⟨some t, body⟩ = TypeMapper.mapTypeNode t) ∧
    (∀ body, TypeMapper.getFunctionReturnType ⟨none, body⟩ = .str "auto") ∧
    (∀ nm t, TypeMapper.getParameterType ⟨nm, some t⟩ = TypeMapper.mapTypeNode t) ∧
    (∀ nm, TypeMapper.getParameterType ⟨nm, none⟩ = .str "auto") :=
  ⟨fun _ _ => rfl, fun _ => rfl, rfl, fun _ _ => rfl, fun _ => rfl, fun _ _ => rfl,
    fun _ => rfl⟩
